import Mathlib

/-
Shallow embedding of the Flow_Lite_bot Telegram Mini App client core:
  - services/WebApp/js/banks.js        (BankDirectory: loadBanks with static fallback)
  - services/WebApp/redirect/redirect.js (RedirectController: bank selection, deep-link
    attempt with timed fallback)
  - the telemetry client (ApiClient: buildPayload / safePost / send functions)
JavaScript objects are modelled by an assoc-list JSON value type; JS truthiness and
the `a || b` idiom are modelled explicitly.  Timer/blur behaviour is modelled as an
event trace parameterised by the environment choices (blur fired, page still alive,
assignment threw).
-/

namespace FlowLite

/-- Model of a JavaScript value as it occurs in this codebase: `undef` stands for
the result of reading an absent property, the rest mirror JSON values. -/
inductive JsValue where
  | undef : JsValue
  | null : JsValue
  | bool (b : Bool) : JsValue
  | num (n : Int) : JsValue
  | str (s : String) : JsValue
  | obj (fields : List (String × JsValue)) : JsValue
  | arr (items : List JsValue) : JsValue

/-- JS truthiness: `undefined`, `null`, `false`, `0` and `""` are falsy; every
object and array is truthy. -/
def truthy : JsValue → Bool
  | .undef => false
  | .null => false
  | .bool b => b
  | .num n => n != 0
  | .str s => s != ""
  | .obj _ => true
  | .arr _ => true

/-- The JavaScript expression `a || b`. -/
def jsOr (a b : JsValue) : JsValue :=
  if truthy a then a else b

/-- The empty object literal. -/
def emptyObj : JsValue := JsValue.obj []

/-- Property read `v.k`: on an object, the first binding of the key (JS objects
have unique keys); on any non-object value in this codebase the read yields
`undefined` (the code guards the `null`/`undefined` cases with `|| {}`). -/
def getProp (v : JsValue) (k : String) : JsValue :=
  match v with
  | .obj fields => (fields.lookup k).getD JsValue.undef
  | _ => JsValue.undef

/-- Property write `o.k = v` on an object's field list: replace the first binding
of the key if present, append the binding otherwise. -/
def setKey : List (String × JsValue) → String → JsValue → List (String × JsValue)
  | [], k, v => [(k, v)]
  | (k2, v2) :: rest, k, v =>
      if k2 = k then (k, v) :: rest else (k2, v2) :: setKey rest k v

theorem lookup_setKey_self (o : List (String × JsValue)) (k : String) (v : JsValue) :
    (setKey o k v).lookup k = some v := by
  induction o with
  | nil => simp [setKey, List.lookup]
  | cons head tail ih =>
      obtain ⟨k2, v2⟩ := head
      by_cases h : k2 = k
      · simp [setKey, h, List.lookup]
      · simp only [setKey, if_neg h, List.lookup]
        have hne : (k == k2) = false := by
          simp [beq_iff_eq]
          exact fun hh => h hh.symm
        simp [hne, ih]

theorem lookup_setKey_ne (o : List (String × JsValue)) (k k2 : String) (v : JsValue)
    (h : k2 ≠ k) : (setKey o k v).lookup k2 = o.lookup k2 := by
  have hfalse : (k2 == k) = false := beq_eq_false_iff_ne.mpr h
  induction o with
  | nil => simp [setKey, List.lookup, hfalse]
  | cons head tail ih =>
      obtain ⟨k3, v3⟩ := head
      by_cases h3 : k3 = k
      · subst h3
        simp [setKey, List.lookup, hfalse]
      · simp only [setKey, if_neg h3, List.lookup]
        cases hbe : (k2 == k3) <;> simp [hbe, ih]

/-! ## BankDirectory (services/WebApp/js/banks.js) -/

/-- A bank descriptor as loaded from `config/banks.json` or the built-in list.
`logo` is optional because the descriptor synthesized by the redirect page for an
unknown bank carries no `logo` property. -/
structure BankDescriptor where
  id : String
  title : String
  logo : Option String
  deeplink : String
  fallback_url : String
deriving Repr, DecidableEq

/-- The hardcoded fallback list returned by the `catch` branch of `loadBanks`
(banks.js lines 15-93). -/
def fallbackBanks : List BankDescriptor :=
  [ { id := "sber", title := "Сбербанк", logo := some "assets/img/banks/sber.png",
      deeplink := "https://www.sberbank.com/sms/pbpn?requisiteNumber=79309791051",
      fallback_url := "https://www.sberbank.com/sms/pbpn?requisiteNumber=79309791051" },
    { id := "alfabank", title := "Альфа-Банк", logo := some "assets/img/banks/alfabank.png",
      deeplink := "alfabank://account",
      fallback_url := "https://web.alfabank.ru/dashboard" },
    { id := "tbank", title := "Т-Банк", logo := some "assets/img/banks/tbank.png",
      deeplink := "tbank://main",
      fallback_url := "https://www.tbank.ru/mybank/" },
    { id := "rshb", title := "Россельхозбанк", logo := some "assets/img/banks/rshb.png",
      deeplink := "rshbmbfl://",
      fallback_url := "https://online.rshb.ru/cas-auth/index?forceAuth=true" },
    { id := "gazprombank", title := "Газпромбанк", logo := some "assets/img/banks/gazprombank.png",
      deeplink := "gpbapp://",
      fallback_url := "https://ib.online.gpb.ru/" },
    { id := "psb", title := "ПСБ", logo := some "assets/img/banks/psb.png",
      deeplink := "psbmobile://auth/accounts",
      fallback_url := "https://ib.psbank.ru/settings" },
    { id := "mkb", title := "МКБ", logo := some "assets/img/banks/mkb.png",
      deeplink := "mkb2://deeplink",
      fallback_url := "https://online.mkb.ru/login" },
    { id := "vtb", title := "ВТБ", logo := some "assets/img/banks/vtb.png",
      deeplink := "vtb://vtb.ru/i/",
      fallback_url := "https://online.vtb.ru/login" },
    { id := "mtsbank", title := "МТС Банк", logo := some "assets/img/banks/mtsbank.png",
      deeplink := "mtsmoney://",
      fallback_url := "https://sso.mtsbank.ru/login/mtsmoney/auth/" },
    { id := "pochtabank", title := "Почта Банк", logo := some "assets/img/banks/pochtabank.png",
      deeplink := "bank100000000016://sbpay",
      fallback_url := "https://my.pochtabank.ru/login" },
    { id := "sovcombank", title := "Совкомбанк", logo := some "assets/img/banks/sovcombank.png",
      deeplink := "ompshared://",
      fallback_url := "https://bk.sovcombank.ru/ru/html/login.html" } ]

/-- Outcome of the directory fetch as observed by the promise chain in
`loadBanks`: the request may fail at the network level, or return a response
with an `ok` flag and a body that either parses as a JSON bank array or not. -/
inductive FetchResult where
  | networkError : FetchResult
  | response (ok : Bool) (body : Option (List BankDescriptor)) : FetchResult
deriving Repr, DecidableEq

/-- The fetch + `then` handler of `loadBanks` (banks.js lines 6-12): a network
error is a rejection; `!response.ok` throws; `response.json()` rejects when the
body does not parse; otherwise the parsed array is produced verbatim. -/
def fetchThenStep : FetchResult → Except String (List BankDescriptor)
  | .networkError => Except.error "fetch rejected"
  | .response ok body =>
      if !ok then Except.error "Не удалось загрузить banks.json"
      else
        match body with
        | none => Except.error "invalid JSON body"
        | some banks => Except.ok banks

/-- Function `loadBanks` (banks.js lines 2-95): the `catch` handler turns every failure of
the chain into a resolution with the static fallback list, so the promise never
rejects. -/
def loadBanks (r : FetchResult) : Except String (List BankDescriptor) :=
  match fetchThenStep r with
  | Except.ok banks => Except.ok banks
  | Except.error _ => Except.ok fallbackBanks

/-- A directory-load outcome that counts as a failure: network error, non-ok
HTTP status, or JSON parse error. -/
def directoryFailed : FetchResult → Prop
  | .networkError => True
  | .response ok body => ok = false ∨ body = none

/-! ## RedirectController (services/WebApp/redirect/redirect.js) -/

/-- The descriptor synthesized by the redirect page when the directory is empty
(redirect.js lines 17-22): `id = bankId || 'unknown'`, a neutral title, no logo
property, empty deep link, and a safe external fallback URL. -/
def unknownBank (bankId : String) : BankDescriptor :=
  { id := if bankId = "" then "unknown" else bankId
    title := "Ваш банк"
    logo := none
    deeplink := ""
    fallback_url := "https://www.google.com" }

/-- Target-bank selection (redirect.js lines 15-22):
`banks.find(bank => bank.id === bankId) || banks[0] || { ...synthesized... }`. -/
def selectTargetBank (banks : List BankDescriptor) (bankId : String) : BankDescriptor :=
  match banks.find? (fun bank => bank.id = bankId) with
  | some bank => bank
  | none =>
      match banks with
      | [] => unknownBank bankId
      | first :: _ => first

/-- Observable actions of the redirect page: a telemetry event sent through
`ApiClient.sendRedirectEvent`, or an assignment to `window.location.href`. -/
inductive PageEvent where
  | telemetry (eventType : String) (bankId : String) : PageEvent
  | navigate (url : String) : PageEvent
deriving Repr, DecidableEq

/-- Environment choices that resolve the nondeterminism of a `tryOpenBank` run:
whether the assignment of the deep link to `location.href` raises synchronously,
whether a `blur` event fires before the 1100 ms timer, and whether the page is
still loaded when the timer would fire (no navigation away intervened). -/
structure RedirectEnv where
  deeplinkThrows : Bool
  blurBeforeTimer : Bool
  pageAliveAtTimer : Bool
deriving Repr, DecidableEq

/-- Function `switchToFallback` (redirect.js lines 70-75): emit the `redirect_fallback`
telemetry event, then navigate to `fallback_url` only when it is truthy. -/
def switchToFallback (bank : BankDescriptor) : List PageEvent :=
  PageEvent.telemetry "redirect_fallback" bank.id ::
    (if bank.fallback_url = "" then [] else [PageEvent.navigate bank.fallback_url])

/-- Result of one `tryOpenBank` run: the ordered trace of observable events,
whether the fallback timer was armed, and whether the blur handler cancelled it. -/
structure RedirectRun where
  trace : List PageEvent
  timerStarted : Bool
  timerCancelled : Bool
deriving Repr, DecidableEq

/-- Function `tryOpenBank` (redirect.js lines 47-68): emit `redirect_attempt`; with no
deep link, run `switchToFallback` at once without arming the timer; otherwise
arm the 1100 ms timer, register the once-only blur listener that clears it, and
assign the deep link to `location.href` inside try/catch (a synchronous throw
runs `switchToFallback` immediately).  The timer later runs `switchToFallback`
exactly when no blur fired within the window and the page is still loaded. -/
def tryOpenBank (bank : BankDescriptor) (env : RedirectEnv) : RedirectRun :=
  let attempt := PageEvent.telemetry "redirect_attempt" bank.id
  if bank.deeplink = "" then
    { trace := attempt :: switchToFallback bank
      timerStarted := false
      timerCancelled := false }
  else
    let syncEvents :=
      if env.deeplinkThrows then switchToFallback bank
      else [PageEvent.navigate bank.deeplink]
    let timerEvents :=
      if env.blurBeforeTimer then []
      else if env.pageAliveAtTimer then switchToFallback bank else []
    { trace := attempt :: (syncEvents ++ timerEvents)
      timerStarted := true
      timerCancelled := env.blurBeforeTimer }

/-- The line `telegramContext.startParam = telegramContext.startParam || transferId`
(redirect.js line 9), applied to the bridge-supplied context object. -/
def backfillStartParam (context : JsValue) (transferId : String) : JsValue :=
  match context with
  | .obj fields =>
      JsValue.obj
        (setKey fields "startParam"
          (jsOr (getProp (JsValue.obj fields) "startParam") (JsValue.str transferId)))
  | other => other

/-! ## TelemetryClient (services/WebApp/js/api.js, given in the repository as
an unnamed source file) -/

/-- Values read from the browser environment at payload-construction time:
`new Date().toISOString()` and the three `navigator` properties. -/
structure BrowserEnv where
  nowIso : String
  userAgent : JsValue
  language : JsValue
  browserPlatform : JsValue

/-- Semantics of `Object.assign({}, base, extra)`: copy `base`, then write each binding of
`extra` in order, later bindings overriding earlier ones. -/
def objAssign (base extra : List (String × JsValue)) : List (String × JsValue) :=
  extra.foldl (fun acc kv => setKey acc kv.1 kv.2) base

/-- Option fallback used to state lookup laws for `objAssign`. -/
def orelse (a b : Option JsValue) : Option JsValue :=
  match a with
  | some v => some v
  | none => b

theorem lookup_objAssign (base extra : List (String × JsValue)) (k : String) :
    (objAssign base extra).lookup k = orelse (extra.reverse.lookup k) (base.lookup k) := by
  induction extra generalizing base with
  | nil => simp [objAssign, orelse, List.lookup]
  | cons head tail ih =>
      obtain ⟨k2, v2⟩ := head
      show (objAssign (setKey base k2 v2) tail).lookup k = _
      rw [ih]
      have happ : (tail.reverse ++ [(k2, v2)]).lookup k =
          orelse (tail.reverse.lookup k) ([(k2, v2)].lookup k) := by
        induction tail.reverse with
        | nil => simp [orelse, List.lookup]
        | cons h2 t2 ih2 =>
            obtain ⟨k3, v3⟩ := h2
            cases hbe : (k == k3) <;> simp [List.lookup, hbe, orelse, ih2]
      simp only [List.reverse_cons, happ]
      cases hlast : tail.reverse.lookup k with
      | some v => simp [orelse]
      | none =>
          simp only [orelse]
          by_cases hk : k = k2
          · subst hk
            simp [List.lookup, lookup_setKey_self]
          · have hbe : (k == k2) = false := beq_eq_false_iff_ne.mpr hk
            simp [List.lookup, hbe, lookup_setKey_ne base k2 k v2 hk]

/-- Function `buildPayload` (api.js lines 4-27), with the ambient-environment reads passed
in explicitly.  `context`, `eventType`, `bankId` and `page` are JS values;
an absent `extra` argument is the empty list. -/
def buildPayload (env : BrowserEnv) (context : JsValue) (eventType bankId page : JsValue)
    (extra : List (String × JsValue)) : List (String × JsValue) :=
  let safeContext := jsOr context emptyObj
  let transferPayload := jsOr (getProp safeContext "transferPayload") emptyObj
  let inlinePayload := jsOr (getProp transferPayload "payload") emptyObj
  let basePayload : List (String × JsValue) :=
    [ ("transfer_id",
        jsOr
          (jsOr (getProp safeContext "startParam")
            (if truthy (getProp safeContext "initDataUnsafe") then
              getProp (getProp safeContext "initDataUnsafe") "start_param"
            else JsValue.str ""))
          (JsValue.str "")),
      ("transfer_payload", transferPayload),
      ("inline_creator_tg_user_id", jsOr (getProp inlinePayload "creator_tg_user_id") JsValue.null),
      ("inline_generated_at", jsOr (getProp inlinePayload "generated_at") (JsValue.str "")),
      ("inline_parsed", jsOr (getProp inlinePayload "parsed") emptyObj),
      ("inline_option", jsOr (getProp inlinePayload "option") emptyObj),
      ("event_type", eventType),
      ("ts", JsValue.str env.nowIso),
      ("initData", jsOr (getProp safeContext "initData") (JsValue.str "")),
      ("initDataUnsafe", jsOr (getProp safeContext "initDataUnsafe") emptyObj),
      ("userAgent", jsOr env.userAgent (JsValue.str "")),
      ("language", jsOr env.language (JsValue.str "")),
      ("platform", jsOr env.browserPlatform (JsValue.str "")),
      ("page", page),
      ("bank_id", jsOr bankId (JsValue.str "")) ]
  objAssign basePayload extra

/-- The keys §3 of the spec documents for every event payload. -/
def documentedPayloadKeys : List String :=
  [ "transfer_id", "transfer_payload", "inline_creator_tg_user_id",
    "inline_generated_at", "inline_parsed", "inline_option", "event_type", "ts",
    "initData", "initDataUnsafe", "userAgent", "language", "platform", "page",
    "bank_id" ]

/-- Outcome of one attempted telemetry transmission, as seen by `safePost`:
`JSON.stringify` may raise synchronously, the `fetch` call may raise
synchronously, the returned promise may reject, or the POST may be delivered. -/
inductive TransmissionOutcome where
  | stringifyThrows : TransmissionOutcome
  | fetchThrowsSync : TransmissionOutcome
  | networkError : TransmissionOutcome
  | delivered : TransmissionOutcome
deriving Repr, DecidableEq

/-- What a telemetry call did: whether a network request was issued and whether
a `console.debug` diagnostic line was written. -/
structure PostInfo where
  networkAttempted : Bool
  debugLogged : Bool
deriving Repr, DecidableEq

/-- The body of `safePost` (api.js lines 29-49) with the protective try/catch
removed: an `Except.error` is a synchronous exception escaping.  The empty-URL
guard returns early with a log and no network access; a promise rejection is
consumed by the attached `.catch` handler, which only logs. -/
def postUnprotected (apiBaseUrl : String) (outcome : TransmissionOutcome) :
    Except String PostInfo :=
  if apiBaseUrl = "" then
    Except.ok { networkAttempted := false, debugLogged := true }
  else
    match outcome with
    | .stringifyThrows => Except.error "exception while serializing the body"
    | .fetchThrowsSync => Except.error "exception while initiating fetch"
    | .networkError => Except.ok { networkAttempted := true, debugLogged := true }
    | .delivered => Except.ok { networkAttempted := true, debugLogged := false }

/-- Function `safePost` (api.js lines 29-49): the try/catch reduces every synchronous
exception to a `console.debug` line, so the function always returns normally. -/
def safePost (apiBaseUrl : String) (outcome : TransmissionOutcome) : PostInfo :=
  match postUnprotected apiBaseUrl outcome with
  | Except.ok info => info
  | Except.error _ => { networkAttempted := false, debugLogged := true }

/-- The configured collection endpoint (api.js line 2). -/
def API_BASE_URL : String := "http://localhost:8080/api/webapp"

/-- Function `sendWebAppOpen` (api.js lines 51-54): build the payload for
`event_type = "webapp_open"`, `page = "miniapp"`, no bank id, and post it. -/
def sendWebAppOpen (env : BrowserEnv) (context : JsValue)
    (outcome : TransmissionOutcome) : List (String × JsValue) × PostInfo :=
  let payload := buildPayload env context (JsValue.str "webapp_open") (JsValue.str "")
    (JsValue.str "miniapp") []
  (payload, safePost API_BASE_URL outcome)

/-- Function `sendBankClick` (api.js lines 56-59). -/
def sendBankClick (env : BrowserEnv) (context bankId : JsValue)
    (outcome : TransmissionOutcome) : List (String × JsValue) × PostInfo :=
  let payload := buildPayload env context (JsValue.str "bank_click") bankId
    (JsValue.str "miniapp") []
  (payload, safePost API_BASE_URL outcome)

/-- Function `sendRedirectEvent` (api.js lines 61-64): `eventType || 'redirect_open'` and
`pageOverride || 'redirect'` are applied before building the payload. -/
def sendRedirectEvent (env : BrowserEnv) (context bankId eventType pageOverride : JsValue)
    (outcome : TransmissionOutcome) : List (String × JsValue) × PostInfo :=
  let payload := buildPayload env context (jsOr eventType (JsValue.str "redirect_open")) bankId
    (jsOr pageOverride (JsValue.str "redirect")) []
  (payload, safePost API_BASE_URL outcome)

/-- A Telegram context restricted to the two sources of `transfer_id`:
`sp` is the context's `startParam` field (`none` = property absent), `idu` is
the `initDataUnsafe` field (`none` = absent; `some inner` = an object whose
`start_param` is `inner`). -/
def contextOfParams (sp : Option String) (idu : Option (Option String)) : JsValue :=
  JsValue.obj
    ((match sp with
      | some s => [("startParam", JsValue.str s)]
      | none => []) ++
     (match idu with
      | some inner =>
          [("initDataUnsafe",
            JsValue.obj
              (match inner with
               | some s2 => [("start_param", JsValue.str s2)]
               | none => []))]
      | none => []))

/-- Modelled from the spec sentence on `transfer_id` resolution priority:
the explicit start parameter when non-empty, otherwise
`initDataUnsafe.start_param` when present, otherwise the empty string. -/
def transferIdSpec (sp : Option String) (idu : Option (Option String)) : String :=
  let primary :=
    match sp with
    | some s => s
    | none => ""
  let secondary :=
    match idu with
    | some (some s2) => s2
    | _ => ""
  if primary = "" then secondary else primary

/-! ## Claim theorems -/

/-- C1: for every directory-load outcome that is a network error, a non-2xx HTTP
status, or a JSON parse error, `loadBanks` resolves (never rejects) with the
fixed built-in fallback list, which is non-empty, has at least ten named bank
descriptors, and every descriptor in it has a non-empty id, title and
fallback_url. -/
theorem loadBanks_failure_yields_fallback (r : FetchResult) (h : directoryFailed r) :
    loadBanks r = Except.ok fallbackBanks ∧
    (∀ r2 : FetchResult, ∃ banks, loadBanks r2 = Except.ok banks) ∧
    fallbackBanks ≠ [] ∧
    10 ≤ fallbackBanks.length ∧
    (∀ b ∈ fallbackBanks, b.id ≠ "" ∧ b.title ≠ "" ∧ b.fallback_url ≠ "") := by
  refine ⟨?_, ?_, by decide, by decide, by decide⟩
  · cases r with
    | networkError => rfl
    | response ok body =>
        rcases h with h | h
        · subst h; rfl
        · subst h; cases ok <;> rfl
  · intro r2
    cases r2 with
    | networkError => exact ⟨fallbackBanks, rfl⟩
    | response ok body =>
        cases ok with
        | false => exact ⟨fallbackBanks, rfl⟩
        | true =>
            cases body with
            | none => exact ⟨fallbackBanks, rfl⟩
            | some banks => exact ⟨banks, rfl⟩

/-- Witness for C1 at the concrete failing outcome of a network error. -/
theorem loadBanks_failure_yields_fallback_witness :
    loadBanks FetchResult.networkError = Except.ok fallbackBanks ∧
    (∀ r2 : FetchResult, ∃ banks, loadBanks r2 = Except.ok banks) ∧
    fallbackBanks ≠ [] ∧
    10 ≤ fallbackBanks.length ∧
    (∀ b ∈ fallbackBanks, b.id ≠ "" ∧ b.title ≠ "" ∧ b.fallback_url ≠ "") :=
  loadBanks_failure_yields_fallback FetchResult.networkError trivial

theorem selectTargetBank_of_match (banks : List BankDescriptor) (bankId : String)
    (h : ∃ b ∈ banks, b.id = bankId) :
    selectTargetBank banks bankId ∈ banks ∧
      (selectTargetBank banks bankId).id = bankId := by
  obtain ⟨b, hb, hid⟩ := h
  cases hfind : banks.find? (fun x => x.id = bankId) with
  | some b2 =>
      have hmem : b2 ∈ banks := List.mem_of_find?_eq_some hfind
      have hpred : b2.id = bankId := by
        have := List.find?_some hfind
        simpa using this
      simp only [selectTargetBank, hfind]
      exact ⟨hmem, hpred⟩
  | none =>
      exfalso
      have := List.find?_eq_none.mp hfind b hb
      simp [hid] at this

theorem selectTargetBank_of_no_match (banks : List BankDescriptor) (bankId : String)
    (first : BankDescriptor) (rest : List BankDescriptor)
    (hall : ∀ b ∈ banks, b.id ≠ bankId) (hbanks : banks = first :: rest) :
    selectTargetBank banks bankId = first := by
  cases hfind : banks.find? (fun x => x.id = bankId) with
  | some b2 =>
      exfalso
      have hmem : b2 ∈ banks := List.mem_of_find?_eq_some hfind
      have hpred : b2.id = bankId := by
        have := List.find?_some hfind
        simpa using this
      exact hall b2 hmem hpred
  | none =>
      subst hbanks
      simp [selectTargetBank, hfind]

/-- C2: the RedirectController selects the descriptor whose id equals the query
bank id when one exists, otherwise the first descriptor of a non-empty
directory, otherwise the synthesized descriptor with id `bankId || 'unknown'`,
neutral title, empty deep link, and the safe default fallback URL. -/
theorem selectTargetBank_spec (banks : List BankDescriptor) (bankId : String) :
    ((∃ b ∈ banks, b.id = bankId) →
      selectTargetBank banks bankId ∈ banks ∧
        (selectTargetBank banks bankId).id = bankId) ∧
    ((∀ b ∈ banks, b.id ≠ bankId) → ∀ first rest, banks = first :: rest →
      selectTargetBank banks bankId = first) ∧
    (banks = [] → selectTargetBank banks bankId = unknownBank bankId) ∧
    (unknownBank bankId).id = (if bankId = "" then "unknown" else bankId) ∧
    (unknownBank bankId).title = "Ваш банк" ∧
    (unknownBank bankId).deeplink = "" ∧
    (unknownBank bankId).fallback_url = "https://www.google.com" := by
  refine ⟨selectTargetBank_of_match banks bankId, ?_, ?_, rfl, rfl, rfl, rfl⟩
  · intro hall first rest hbanks
    exact selectTargetBank_of_no_match banks bankId first rest hall hbanks
  · intro h
    subst h
    rfl

/-- Witness for C2: with the built-in list, bank id `vtb` selects the vtb
descriptor, an unmatched id selects the first entry, and the empty directory
yields the synthesized descriptor. -/
theorem selectTargetBank_spec_witness :
    (selectTargetBank fallbackBanks "vtb" ∈ fallbackBanks ∧
      (selectTargetBank fallbackBanks "vtb").id = "vtb") ∧
    (selectTargetBank fallbackBanks "doesnotexist").id = "sber" ∧
    selectTargetBank ([] : List BankDescriptor) "" = unknownBank "" := by
  refine ⟨(selectTargetBank_spec fallbackBanks "vtb").1 (by decide), ?_,
    (selectTargetBank_spec ([] : List BankDescriptor) "").2.2.1 rfl⟩
  have hfirst :=
    (selectTargetBank_spec fallbackBanks "doesnotexist").2.1 (by decide)
      (fallbackBanks.get ⟨0, by decide⟩) fallbackBanks.tail rfl
  rw [hfirst]
  rfl

/-- C10: when the query bank id is the empty string, the loaded directory is
non-empty, and no descriptor has an empty id, the controller selects the first
descriptor (not the synthesized unknown one) and proceeds to attempt its deep
link. -/
theorem empty_bankId_selects_first (banks : List BankDescriptor)
    (first : BankDescriptor) (rest : List BankDescriptor) (env : RedirectEnv)
    (hbanks : banks = first :: rest) (hids : ∀ b ∈ banks, b.id ≠ "") :
    selectTargetBank banks "" = first ∧
    (tryOpenBank first env).trace.head? =
      some (PageEvent.telemetry "redirect_attempt" first.id) ∧
    (first.deeplink ≠ "" → env.deeplinkThrows = false →
      PageEvent.navigate first.deeplink ∈ (tryOpenBank first env).trace ∧
      (tryOpenBank first env).timerStarted = true) := by
  refine ⟨?_, ?_, ?_⟩
  · exact selectTargetBank_of_no_match banks "" first rest hids hbanks
  · by_cases hdl : first.deeplink = "" <;> simp [tryOpenBank, hdl]
  · intro hdl hth
    simp [tryOpenBank, hdl, hth]

/-- Witness for C10 on the built-in list with an absent bank id: the sber
descriptor is selected and its deep link is navigated to. -/
theorem empty_bankId_selects_first_witness :
    selectTargetBank fallbackBanks "" = fallbackBanks.get ⟨0, by decide⟩ ∧
    (tryOpenBank (fallbackBanks.get ⟨0, by decide⟩) ⟨false, false, true⟩).trace.head? =
      some (PageEvent.telemetry "redirect_attempt" (fallbackBanks.get ⟨0, by decide⟩).id) ∧
    PageEvent.navigate (fallbackBanks.get ⟨0, by decide⟩).deeplink ∈
      (tryOpenBank (fallbackBanks.get ⟨0, by decide⟩) ⟨false, false, true⟩).trace ∧
    (tryOpenBank (fallbackBanks.get ⟨0, by decide⟩) ⟨false, false, true⟩).timerStarted = true := by
  have h := empty_bankId_selects_first fallbackBanks (fallbackBanks.get ⟨0, by decide⟩)
    fallbackBanks.tail ⟨false, false, true⟩ rfl (by decide)
  exact ⟨h.1, h.2.1, h.2.2 (by decide) rfl⟩

/-- Counterexample to C3 as stated: for a selected descriptor with a non-empty
deep link but an empty `fallback_url`, the timer elapses uncancelled with no
focus loss, yet no navigation to `fallback_url` occurs — `switchToFallback`
only emits the telemetry event. -/
theorem tryOpenBank_empty_fallback_url_counterexample :
    tryOpenBank
        { id := "bankx", title := "BankX", logo := none,
          deeplink := "bankx://open", fallback_url := "" }
        { deeplinkThrows := false, blurBeforeTimer := false, pageAliveAtTimer := true } =
      { trace := [PageEvent.telemetry "redirect_attempt" "bankx",
          PageEvent.navigate "bankx://open",
          PageEvent.telemetry "redirect_fallback" "bankx"],
        timerStarted := true, timerCancelled := false } ∧
    PageEvent.navigate "" ∉
      (tryOpenBank
        { id := "bankx", title := "BankX", logo := none,
          deeplink := "bankx://open", fallback_url := "" }
        { deeplinkThrows := false, blurBeforeTimer := false,
          pageAliveAtTimer := true }).trace := by
  decide

/-- C3 amended: with an empty deep link the fallback step runs at once and no
timer is armed; with a non-empty deep link the timer is armed and, when it
elapses with no focus loss on a still-loaded page, the fallback step runs —
navigating to `fallback_url` provided that URL is non-empty — while a focus
loss before the timer cancels it and suppresses the fallback entirely. -/
theorem tryOpenBank_timer_spec (bank : BankDescriptor) (env : RedirectEnv) :
    (bank.deeplink = "" →
      tryOpenBank bank env =
        { trace := PageEvent.telemetry "redirect_attempt" bank.id :: switchToFallback bank,
          timerStarted := false, timerCancelled := false }) ∧
    (bank.deeplink ≠ "" →
      (tryOpenBank bank env).timerStarted = true ∧
      (env.deeplinkThrows = false → env.blurBeforeTimer = false →
        env.pageAliveAtTimer = true → bank.fallback_url ≠ "" →
        PageEvent.navigate bank.fallback_url ∈ (tryOpenBank bank env).trace) ∧
      (env.blurBeforeTimer = true →
        (tryOpenBank bank env).timerCancelled = true ∧
        (env.deeplinkThrows = false →
          (tryOpenBank bank env).trace =
            [PageEvent.telemetry "redirect_attempt" bank.id,
             PageEvent.navigate bank.deeplink]))) := by
  refine ⟨?_, ?_⟩
  · intro hdl
    simp [tryOpenBank, hdl]
  · intro hdl
    refine ⟨by simp [tryOpenBank, hdl], ?_, ?_⟩
    · intro hth hblur halive hfb
      simp [tryOpenBank, hdl, hth, hblur, halive, switchToFallback, hfb]
    · intro hblur
      refine ⟨by simp [tryOpenBank, hdl, hblur], ?_⟩
      intro hth
      simp [tryOpenBank, hdl, hblur, hth]

/-- Witness for C3 amended: the synthesized bank has no deep link and falls back
at once; the vtb descriptor arms the timer, navigates to its fallback URL when
the timer elapses, and is suppressed by a blur event. -/
theorem tryOpenBank_timer_spec_witness :
    tryOpenBank (unknownBank "x") ⟨false, false, true⟩ =
      { trace := PageEvent.telemetry "redirect_attempt" "x" :: switchToFallback (unknownBank "x"),
        timerStarted := false, timerCancelled := false } ∧
    PageEvent.navigate (fallbackBanks.get ⟨7, by decide⟩).fallback_url ∈
      (tryOpenBank (fallbackBanks.get ⟨7, by decide⟩) ⟨false, false, true⟩).trace ∧
    (tryOpenBank (fallbackBanks.get ⟨7, by decide⟩) ⟨false, true, true⟩).timerCancelled = true := by
  refine ⟨(tryOpenBank_timer_spec (unknownBank "x") ⟨false, false, true⟩).1 rfl, ?_, ?_⟩
  · exact (((tryOpenBank_timer_spec (fallbackBanks.get ⟨7, by decide⟩)
      ⟨false, false, true⟩).2 (by decide)).2.1) rfl rfl rfl (by decide)
  · exact ((((tryOpenBank_timer_spec (fallbackBanks.get ⟨7, by decide⟩)
      ⟨false, true, true⟩).2 (by decide)).2.2) rfl).1

/-- C6: when the deep-link assignment raises synchronously, the controller runs
the fallback step immediately: it emits `redirect_fallback`, navigates to the
fallback URL when one is present, and performs no navigation in the fallback
step when no fallback URL exists. -/
theorem deeplink_throw_triggers_fallback (bank : BankDescriptor) (env : RedirectEnv)
    (hdl : bank.deeplink ≠ "") (hthrow : env.deeplinkThrows = true) :
    (tryOpenBank bank env).trace =
      PageEvent.telemetry "redirect_attempt" bank.id ::
        (switchToFallback bank ++
          (if env.blurBeforeTimer then []
           else if env.pageAliveAtTimer then switchToFallback bank else [])) ∧
    (bank.fallback_url ≠ "" →
      switchToFallback bank =
        [PageEvent.telemetry "redirect_fallback" bank.id,
         PageEvent.navigate bank.fallback_url]) ∧
    (bank.fallback_url = "" →
      switchToFallback bank = [PageEvent.telemetry "redirect_fallback" bank.id] ∧
      ∀ url, PageEvent.navigate url ∉ switchToFallback bank) := by
  refine ⟨by simp [tryOpenBank, hdl, hthrow], ?_, ?_⟩
  · intro hfb
    simp [switchToFallback, hfb]
  · intro hfb
    refine ⟨by simp [switchToFallback, hfb], ?_⟩
    intro url
    simp [switchToFallback, hfb]

/-- Witness for C6 at two concrete banks: one with a fallback URL, one without. -/
theorem deeplink_throw_triggers_fallback_witness :
    (tryOpenBank (fallbackBanks.get ⟨7, by decide⟩) ⟨true, true, true⟩).trace =
      PageEvent.telemetry "redirect_attempt" "vtb" ::
        (switchToFallback (fallbackBanks.get ⟨7, by decide⟩) ++ []) ∧
    switchToFallback (fallbackBanks.get ⟨7, by decide⟩) =
      [PageEvent.telemetry "redirect_fallback" "vtb",
       PageEvent.navigate "https://online.vtb.ru/login"] ∧
    switchToFallback
        { id := "nf", title := "NoFallback", logo := none,
          deeplink := "nf://open", fallback_url := "" } =
      [PageEvent.telemetry "redirect_fallback" "nf"] := by
  have h1 := deeplink_throw_triggers_fallback (fallbackBanks.get ⟨7, by decide⟩)
    ⟨true, true, true⟩ (by decide) rfl
  have h2 := deeplink_throw_triggers_fallback
    { id := "nf", title := "NoFallback", logo := none,
      deeplink := "nf://open", fallback_url := "" }
    ⟨true, true, true⟩ (by decide) rfl
  exact ⟨h1.1, h1.2.1 (by decide), (h2.2.2 rfl).1⟩

/-- C9 (implicit): when the deep-link assignment throws, the timer armed before
it is not cancelled, so with no focus loss and the page still loaded the
fallback step runs twice: `redirect_fallback` is emitted twice and navigation
to the fallback URL (when present) is attempted both immediately and when the
timer elapses. -/
theorem thrown_deeplink_double_fallback (bank : BankDescriptor)
    (hdl : bank.deeplink ≠ "") :
    (tryOpenBank bank ⟨true, false, true⟩).timerStarted = true ∧
    (tryOpenBank bank ⟨true, false, true⟩).timerCancelled = false ∧
    (tryOpenBank bank ⟨true, false, true⟩).trace =
      PageEvent.telemetry "redirect_attempt" bank.id ::
        (switchToFallback bank ++ switchToFallback bank) ∧
    (tryOpenBank bank ⟨true, false, true⟩).trace.count
      (PageEvent.telemetry "redirect_fallback" bank.id) = 2 ∧
    (bank.fallback_url ≠ "" →
      (tryOpenBank bank ⟨true, false, true⟩).trace.count
        (PageEvent.navigate bank.fallback_url) = 2) := by
  have hne : ("redirect_attempt" : String) ≠ "redirect_fallback" := by decide
  refine ⟨by simp [tryOpenBank, hdl], by simp [tryOpenBank, hdl],
    by simp [tryOpenBank, hdl], ?_, ?_⟩
  · by_cases hfb : bank.fallback_url = "" <;>
      simp [tryOpenBank, hdl, switchToFallback, hfb, List.count_cons,
        List.count_append, hne]
  · intro hfb
    simp [tryOpenBank, hdl, switchToFallback, hfb, List.count_cons,
      List.count_append]

/-- Witness for C9 at the vtb descriptor. -/
theorem thrown_deeplink_double_fallback_witness :
    (tryOpenBank (fallbackBanks.get ⟨7, by decide⟩) ⟨true, false, true⟩).timerCancelled = false ∧
    (tryOpenBank (fallbackBanks.get ⟨7, by decide⟩) ⟨true, false, true⟩).trace.count
      (PageEvent.telemetry "redirect_fallback" "vtb") = 2 ∧
    (tryOpenBank (fallbackBanks.get ⟨7, by decide⟩) ⟨true, false, true⟩).trace.count
      (PageEvent.navigate "https://online.vtb.ru/login") = 2 := by
  have h := thrown_deeplink_double_fallback (fallbackBanks.get ⟨7, by decide⟩) (by decide)
  exact ⟨h.2.1, h.2.2.2.1, h.2.2.2.2 (by decide)⟩

/-- Counterexample to C4 as stated: the backfill step mutates the bridge-supplied
context object — with an empty start parameter and a non-empty `transfer_id`,
the context's `startParam` field changes from `""` to the transfer id. -/
theorem backfill_mutates_context_counterexample :
    backfillStartParam (JsValue.obj [("startParam", JsValue.str "")]) "t-123" ≠
      JsValue.obj [("startParam", JsValue.str "")] ∧
    getProp (backfillStartParam (JsValue.obj [("startParam", JsValue.str "")]) "t-123")
      "startParam" = JsValue.str "t-123" ∧
    getProp (JsValue.obj [("startParam", JsValue.str "")]) "startParam" =
      JsValue.str "" := by
  refine ⟨?_, rfl, rfl⟩
  intro h
  have hprop : JsValue.str "t-123" = JsValue.str "" :=
    congrArg (fun v => getProp v "startParam") h
  injection hprop with hs
  exact absurd hs (by decide)

/-- C4 amended: the context object is not immutable — the backfill step
overwrites its `startParam` field in place with the query `transfer_id` exactly
when the bridge-supplied value is falsy (empty or absent), leaves a truthy
`startParam` unchanged, and modifies no other field. -/
theorem backfillStartParam_effect (fields : List (String × JsValue))
    (transferId : String) :
    getProp (backfillStartParam (JsValue.obj fields) transferId) "startParam" =
      jsOr (getProp (JsValue.obj fields) "startParam") (JsValue.str transferId) ∧
    (∀ k, k ≠ "startParam" →
      getProp (backfillStartParam (JsValue.obj fields) transferId) k =
        getProp (JsValue.obj fields) k) ∧
    (truthy (getProp (JsValue.obj fields) "startParam") = true →
      getProp (backfillStartParam (JsValue.obj fields) transferId) "startParam" =
        getProp (JsValue.obj fields) "startParam") ∧
    (truthy (getProp (JsValue.obj fields) "startParam") = false →
      getProp (backfillStartParam (JsValue.obj fields) transferId) "startParam" =
        JsValue.str transferId) := by
  have hmain : getProp (backfillStartParam (JsValue.obj fields) transferId) "startParam" =
      jsOr (getProp (JsValue.obj fields) "startParam") (JsValue.str transferId) := by
    simp [backfillStartParam, getProp, lookup_setKey_self]
  refine ⟨hmain, ?_, ?_, ?_⟩
  · intro k hk
    have hne := lookup_setKey_ne fields "startParam" k
      (jsOr (getProp (JsValue.obj fields) "startParam") (JsValue.str transferId)) hk
    simp only [getProp] at hne
    simp [backfillStartParam, getProp, hne]
  · intro ht
    rw [hmain]
    simp [jsOr, ht]
  · intro ht
    rw [hmain]
    simp [jsOr, ht]

/-- Witness for C4 amended at concrete contexts: a truthy start parameter is
kept and other fields are untouched; a falsy one is overwritten. -/
theorem backfillStartParam_effect_witness :
    getProp
        (backfillStartParam
          (JsValue.obj [("startParam", JsValue.str "abc"), ("initData", JsValue.str "d")]) "t")
        "startParam" =
      getProp (JsValue.obj [("startParam", JsValue.str "abc"), ("initData", JsValue.str "d")])
        "startParam" ∧
    getProp
        (backfillStartParam
          (JsValue.obj [("startParam", JsValue.str "abc"), ("initData", JsValue.str "d")]) "t")
        "initData" =
      getProp (JsValue.obj [("startParam", JsValue.str "abc"), ("initData", JsValue.str "d")])
        "initData" ∧
    getProp (backfillStartParam (JsValue.obj [("startParam", JsValue.str "")]) "t")
        "startParam" = JsValue.str "t" := by
  have h1 := backfillStartParam_effect
    [("startParam", JsValue.str "abc"), ("initData", JsValue.str "d")] "t"
  have h2 := backfillStartParam_effect [("startParam", JsValue.str "")] "t"
  exact ⟨h1.2.2.1 rfl, h1.2.1 "initData" (by decide), h2.2.2.2 rfl⟩

/-- C5: every telemetry operation reduces to `safePost`, whose try/catch turns
every synchronous exception into a debug log so that it always returns
normally; with an empty configured endpoint URL no network access happens and
only a log is written. -/
theorem telemetry_never_throws (env : BrowserEnv)
    (context bankId eventType pageOverride : JsValue)
    (outcome : TransmissionOutcome) (url : String) :
    (sendWebAppOpen env context outcome).2 = safePost API_BASE_URL outcome ∧
    (sendBankClick env context bankId outcome).2 = safePost API_BASE_URL outcome ∧
    (sendRedirectEvent env context bankId eventType pageOverride outcome).2 =
      safePost API_BASE_URL outcome ∧
    (∀ e, postUnprotected url outcome = Except.error e →
      safePost url outcome = { networkAttempted := false, debugLogged := true }) ∧
    safePost "" outcome = { networkAttempted := false, debugLogged := true } ∧
    (postUnprotected "" outcome).isOk = true := by
  refine ⟨rfl, rfl, rfl, ?_, rfl, rfl⟩
  intro e he
  simp [safePost, he]

/-- Witness for C5: a synchronous serialization exception at a non-empty URL is
reduced to a log, and the empty-URL configuration skips the network. -/
theorem telemetry_never_throws_witness :
    safePost "http://example" TransmissionOutcome.stringifyThrows =
      { networkAttempted := false, debugLogged := true } ∧
    safePost "" TransmissionOutcome.delivered =
      { networkAttempted := false, debugLogged := true } := by
  have h1 := telemetry_never_throws ⟨"2024-01-01T00:00:00Z", JsValue.undef, JsValue.undef,
    JsValue.undef⟩ JsValue.null JsValue.null JsValue.null JsValue.null
    TransmissionOutcome.stringifyThrows "http://example"
  have h2 := telemetry_never_throws ⟨"2024-01-01T00:00:00Z", JsValue.undef, JsValue.undef,
    JsValue.undef⟩ JsValue.null JsValue.null JsValue.null JsValue.null
    TransmissionOutcome.delivered ""
  exact ⟨h1.2.2.2.1 "exception while serializing the body" rfl, h2.2.2.2.2.1⟩

theorem lookup_buildPayload_transfer_id (env : BrowserEnv)
    (context eventType bankId page : JsValue) :
    List.lookup "transfer_id" (buildPayload env context eventType bankId page []) =
      some
        (jsOr
          (jsOr (getProp (jsOr context emptyObj) "startParam")
            (if truthy (getProp (jsOr context emptyObj) "initDataUnsafe") then
              getProp (getProp (jsOr context emptyObj) "initDataUnsafe") "start_param"
            else JsValue.str ""))
          (JsValue.str "")) := rfl

/-- C7: in every event payload the `transfer_id` field is the context's explicit
start parameter when non-empty, otherwise `initDataUnsafe.start_param` when
that object is present, otherwise the empty string — for every combination of
the sources being present or absent. -/
theorem transfer_id_priority (env : BrowserEnv) (eventType bankId page : JsValue)
    (sp : Option String) (idu : Option (Option String)) :
    List.lookup "transfer_id"
        (buildPayload env (contextOfParams sp idu) eventType bankId page []) =
      some (JsValue.str (transferIdSpec sp idu)) := by
  rw [lookup_buildPayload_transfer_id]
  rcases sp with _ | s
  · rcases idu with _ | inner
    · simp [contextOfParams, getProp, jsOr, truthy, emptyObj, transferIdSpec, List.lookup]
    · rcases inner with _ | s2
      · simp [contextOfParams, getProp, jsOr, truthy, emptyObj, transferIdSpec, List.lookup]
      · by_cases hs2 : s2 = "" <;>
          simp [contextOfParams, getProp, jsOr, truthy, emptyObj, transferIdSpec,
            List.lookup, hs2]
  · rcases idu with _ | inner
    · by_cases hs : s = "" <;>
        simp [contextOfParams, getProp, jsOr, truthy, emptyObj, transferIdSpec,
          List.lookup, hs]
    · rcases inner with _ | s2
      · by_cases hs : s = "" <;>
          simp [contextOfParams, getProp, jsOr, truthy, emptyObj, transferIdSpec,
            List.lookup, hs]
      · by_cases hs : s = "" <;> by_cases hs2 : s2 = "" <;>
          simp [contextOfParams, getProp, jsOr, truthy, emptyObj, transferIdSpec,
            List.lookup, hs, hs2]

theorem orelse_isSome (a b : Option JsValue) (hb : b.isSome = true) :
    (orelse a b).isSome = true := by
  cases a <;> simp [orelse, hb]

/-- C8: every payload contains all documented fields; with an absent context the
object-valued fields default to `{}`, `inline_creator_tg_user_id` to `null`,
and the string-valued fields to `""`; and the extra-fields map is merged over
the base record with later fields overriding earlier ones. -/
theorem buildPayload_fields_defaults_merge (env : BrowserEnv)
    (context eventType bankId page : JsValue) (extra : List (String × JsValue)) :
    (∀ k ∈ documentedPayloadKeys,
      (List.lookup k (buildPayload env context eventType bankId page extra)).isSome = true) ∧
    (∀ k, List.lookup k (buildPayload env context eventType bankId page extra) =
      orelse (extra.reverse.lookup k)
        (List.lookup k (buildPayload env context eventType bankId page []))) ∧
    (List.lookup "transfer_payload"
        (buildPayload env JsValue.null eventType JsValue.undef page []) = some emptyObj ∧
      List.lookup "inline_creator_tg_user_id"
        (buildPayload env JsValue.null eventType JsValue.undef page []) = some JsValue.null ∧
      List.lookup "inline_generated_at"
        (buildPayload env JsValue.null eventType JsValue.undef page []) =
          some (JsValue.str "") ∧
      List.lookup "inline_parsed"
        (buildPayload env JsValue.null eventType JsValue.undef page []) = some emptyObj ∧
      List.lookup "inline_option"
        (buildPayload env JsValue.null eventType JsValue.undef page []) = some emptyObj ∧
      List.lookup "initData"
        (buildPayload env JsValue.null eventType JsValue.undef page []) =
          some (JsValue.str "") ∧
      List.lookup "initDataUnsafe"
        (buildPayload env JsValue.null eventType JsValue.undef page []) = some emptyObj ∧
      List.lookup "bank_id"
        (buildPayload env JsValue.null eventType JsValue.undef page []) =
          some (JsValue.str "")) := by
  have hsplit : ∀ k, List.lookup k (buildPayload env context eventType bankId page extra) =
      orelse (extra.reverse.lookup k)
        (List.lookup k (buildPayload env context eventType bankId page [])) := by
    intro k
    exact lookup_objAssign (buildPayload env context eventType bankId page []) extra k
  refine ⟨?_, hsplit, rfl, rfl, rfl, rfl, rfl, rfl, rfl, rfl⟩
  intro k hk
  rw [hsplit k]
  apply orelse_isSome
  fin_cases hk <;> rfl

/-- Witness for C8 at a concrete call: all documented fields are present, and an
extra field overrides the base `page` value. -/
theorem buildPayload_fields_defaults_merge_witness :
    (List.lookup "ts"
        (buildPayload ⟨"2024-01-01T00:00:00Z", JsValue.undef, JsValue.undef, JsValue.undef⟩
          JsValue.null (JsValue.str "webapp_open") JsValue.undef (JsValue.str "miniapp")
          [("page", JsValue.str "override")])).isSome = true ∧
    List.lookup "page"
        (buildPayload ⟨"2024-01-01T00:00:00Z", JsValue.undef, JsValue.undef, JsValue.undef⟩
          JsValue.null (JsValue.str "webapp_open") JsValue.undef (JsValue.str "miniapp")
          [("page", JsValue.str "override")]) = some (JsValue.str "override") ∧
    List.lookup "inline_parsed"
        (buildPayload ⟨"2024-01-01T00:00:00Z", JsValue.undef, JsValue.undef, JsValue.undef⟩
          JsValue.null (JsValue.str "webapp_open") JsValue.undef (JsValue.str "miniapp") []) =
      some emptyObj := by
  have h := buildPayload_fields_defaults_merge
    ⟨"2024-01-01T00:00:00Z", JsValue.undef, JsValue.undef, JsValue.undef⟩
    JsValue.null (JsValue.str "webapp_open") JsValue.undef (JsValue.str "miniapp")
    [("page", JsValue.str "override")]
  refine ⟨h.1 "ts" (by decide), ?_, h.2.2.2.2.2.1⟩
  rw [h.2.1 "page"]
  rfl

end FlowLite
